import Mathlib

/-!
Shallow embedding of the Inkwell-Haven content store (the `DatabaseStorage`
class of the storage module, over the Drizzle schema of `schema.ts`), and
theorems checking the specification's claims about it.

Modelling conventions:
* opaque string ids (`gen_random_uuid()`) are modelled as naturals drawn from
  a fresh-id counter `nextId` carried by the store state;
* timestamps (`new Date()`, `defaultNow()`) are naturals read from a clock
  field `now` carried by the store state;
* each table is a list of rows, in insertion order;
* a SQL `UPDATE ... WHERE` maps over the list and rewrites matching rows;
  a `DELETE ... WHERE` filters them out; `SELECT ... ORDER BY` sorts a
  filtered copy with a stable insertion sort;
* Drizzle's `.where()` on a select builder OVERWRITES any previously set
  condition (it assigns `config.where`, it does not conjoin), and this
  behaviour is embedded as such where the source chains two `.where` calls;
* nullable columns are `Option`; `.returning()` followed by destructuring
  the first row is modelled as `Option` of the first matching row.
-/

namespace Inkwell

/-- Opaque string ids modelled as naturals. -/
abbrev Id := Nat

/-- Timestamps modelled as naturals. -/
abbrev Time := Nat

/-- Row of the `users` table. -/
structure User where
  id : Id
  email : Option String
  firstName : Option String
  lastName : Option String
  profileImageUrl : Option String
  bio : Option String
  username : Option String
  createdAt : Time
  updatedAt : Time
deriving Repr, DecidableEq

/-- Row of the `stories` table. -/
structure Story where
  id : Id
  title : String
  content : String
  excerpt : Option String
  category : String
  coverImageUrl : Option String
  authorId : Id
  published : Bool
  publishedAt : Option Time
  wordCount : Nat
  hasChapters : Bool
  createdAt : Time
  updatedAt : Time
deriving Repr, DecidableEq

/-- Row of the `chapters` table. -/
structure Chapter where
  id : Id
  storyId : Id
  title : String
  content : String
  chapterNumber : Nat
  published : Bool
  publishedAt : Option Time
  wordCount : Nat
  createdAt : Time
  updatedAt : Time
deriving Repr, DecidableEq

/-- Row of the `likes` table. -/
structure Like where
  id : Id
  userId : Id
  storyId : Id
  createdAt : Time
deriving Repr, DecidableEq

/-- Row of the `notifications` table. -/
structure Notification where
  id : Id
  userId : Id
  «type» : String
  storyId : Option Id
  read : Bool
  createdAt : Time
deriving Repr, DecidableEq

/-- Row of the `bookmarks` table. -/
structure Bookmark where
  id : Id
  userId : Id
  storyId : Id
  chapterId : Option Id
  position : Int
  note : Option String
  createdAt : Time
deriving Repr, DecidableEq

/-- The relational store state: one list per table used by the claims, the
fresh-id counter standing for `gen_random_uuid()`, and the current clock. -/
structure DB where
  users : List User
  stories : List Story
  chapters : List Chapter
  likes : List Like
  notifications : List Notification
  bookmarks : List Bookmark
  nextId : Id
  now : Time
deriving Repr, DecidableEq

/-- `InsertStory` (`insertStorySchema` omits id, createdAt, updatedAt,
publishedAt; columns with DB defaults are optional). -/
structure InsertStory where
  title : String
  content : String
  excerpt : Option String := none
  category : String
  coverImageUrl : Option String := none
  authorId : Id
  published : Option Bool := none
  wordCount : Option Nat := none
  hasChapters : Option Bool := none
deriving Repr, DecidableEq

/-- `Partial InsertStory`: a patch; `none` means the field is absent from
the update object, `some v` that it is set to `v`. -/
structure StoryPatch where
  title : Option String := none
  content : Option String := none
  excerpt : Option (Option String) := none
  category : Option String := none
  coverImageUrl : Option (Option String) := none
  authorId : Option Id := none
  published : Option Bool := none
  wordCount : Option Nat := none
  hasChapters : Option Bool := none
deriving Repr, DecidableEq

/-- `InsertBookmark` (`insertBookmarkSchema` omits id and createdAt). -/
structure InsertBookmark where
  userId : Id
  storyId : Id
  chapterId : Option Id := none
  position : Int
  note : Option String := none
deriving Repr, DecidableEq

/-- Return value of `toggleLike`. -/
structure ToggleResult where
  liked : Bool
  count : Nat
deriving Repr, DecidableEq

/-- `getStory(id)`: first row of `stories` with the given id. -/
def getStory (db : DB) (id : Id) : Option Story :=
  (db.stories.filter (fun s => s.id == id)).head?

/-- `getLikeCount(storyId)`: `count()` of like rows for the story. -/
def getLikeCount (db : DB) (storyId : Id) : Nat :=
  (db.likes.filter (fun l => l.storyId == storyId)).length

/-- `createNotification(userId, type, storyId?)`: insert a notification row
(`read` defaults false, `createdAt` defaults now) and return it. -/
def createNotification (db : DB) (userId : Id) («type» : String)
    (storyId : Option Id) : DB × Notification :=
  let n : Notification :=
    { id := db.nextId, userId := userId, «type» := «type», storyId := storyId,
      read := false, createdAt := db.now }
  ({ db with notifications := db.notifications ++ [n], nextId := db.nextId + 1 }, n)

/-- The select of `toggleLike`: like rows for (userId, storyId). -/
def likesForPair (db : DB) (userId storyId : Id) : List Like :=
  db.likes.filter (fun l => l.userId == userId && l.storyId == storyId)

/-- `toggleLike(userId, storyId)`: check existence (`limit(1)`); if present,
delete the pair's rows and return the new count with `liked: false`; if
absent, insert a like, notify the story's author unless it is the liking
user (or the story does not exist), and return the new count with
`liked: true`. -/
def toggleLike (db : DB) (userId storyId : Id) : DB × ToggleResult :=
  let existingLike := (likesForPair db userId storyId).take 1
  if 0 < existingLike.length then
    let db1 : DB :=
      { db with likes :=
          db.likes.filter (fun l => !(l.userId == userId && l.storyId == storyId)) }
    (db1, { liked := false, count := getLikeCount db1 storyId })
  else
    let newLike : Like :=
      { id := db.nextId, userId := userId, storyId := storyId, createdAt := db.now }
    let db1 : DB := { db with likes := db.likes ++ [newLike], nextId := db.nextId + 1 }
    let db2 : DB :=
      match getStory db1 storyId with
      | some story =>
          if story.authorId != userId then
            (createNotification db1 story.authorId "like" (some storyId)).1
          else db1
      | none => db1
    (db2, { liked := true, count := getLikeCount db2 storyId })

/-- `createStory(story)`: insert with DB defaults for the optional columns;
`publishedAt` is not in `InsertStory`, so it is always null on insert. -/
def createStory (db : DB) (d : InsertStory) : DB × Story :=
  let s : Story :=
    { id := db.nextId, title := d.title, content := d.content, excerpt := d.excerpt,
      category := d.category, coverImageUrl := d.coverImageUrl, authorId := d.authorId,
      published := d.published.getD false, publishedAt := none,
      wordCount := d.wordCount.getD 0, hasChapters := d.hasChapters.getD false,
      createdAt := db.now, updatedAt := db.now }
  ({ db with stories := db.stories ++ [s], nextId := db.nextId + 1 }, s)

/-- Spread of a `Partial InsertStory` patch over a story row, plus the
`updatedAt: new Date()` that `updateStory` always sets. -/
def applyStoryPatch (p : StoryPatch) (now : Time) (s : Story) : Story :=
  { s with
    title := p.title.getD s.title
    content := p.content.getD s.content
    excerpt := p.excerpt.getD s.excerpt
    category := p.category.getD s.category
    coverImageUrl := p.coverImageUrl.getD s.coverImageUrl
    authorId := p.authorId.getD s.authorId
    published := p.published.getD s.published
    wordCount := p.wordCount.getD s.wordCount
    hasChapters := p.hasChapters.getD s.hasChapters
    updatedAt := now }

/-- `updateStory(id, updates)`: patch the matching rows, refresh `updatedAt`,
return the first updated row. -/
def updateStory (db : DB) (id : Id) (p : StoryPatch) : DB × Option Story :=
  let stories := db.stories.map (fun s => if s.id == id then applyStoryPatch p db.now s else s)
  ({ db with stories := stories }, (stories.filter (fun s => s.id == id)).head?)

/-- `publishStory(id)`: set `published`, `publishedAt`, `updatedAt`. -/
def publishStory (db : DB) (id : Id) : DB × Option Story :=
  let stories := db.stories.map (fun s =>
    if s.id == id then
      { s with published := true, publishedAt := some db.now, updatedAt := db.now }
    else s)
  ({ db with stories := stories }, (stories.filter (fun s => s.id == id)).head?)

/-- `enableChaptersOnStory(id)`: set `hasChapters` and `updatedAt`. -/
def enableChaptersOnStory (db : DB) (id : Id) : DB × Option Story :=
  let stories := db.stories.map (fun s =>
    if s.id == id then { s with hasChapters := true, updatedAt := db.now } else s)
  ({ db with stories := stories }, (stories.filter (fun s => s.id == id)).head?)

/-- `ORDER BY t DESC` on a nullable timestamp column: Postgres `DESC`
defaults to `NULLS FIRST`, so a null sorts before every value and larger
values sort first. `timeDescLe a b` says `a` may come no later than `b`. -/
def timeDescLe (a b : Option Time) : Bool :=
  match a, b with
  | none, _ => true
  | some _, none => false
  | some x, some y => y ≤ x

/-- Sort relation of `ORDER BY publishedAt DESC` on story rows. -/
def storyRecentOrder (a b : Story) : Prop :=
  timeDescLe a.publishedAt b.publishedAt = true

instance : DecidableRel storyRecentOrder := fun a b =>
  inferInstanceAs (Decidable (_ = true))

/-- `getStoriesByAuthor(authorId)`: the author's published stories, ordered
by publish timestamp descending. -/
def getStoriesByAuthor (db : DB) (authorId : Id) : List Story :=
  List.insertionSort storyRecentOrder
    (db.stories.filter (fun s => s.authorId == authorId && s.published))

/-- Sort relation of `ORDER BY chapterNumber` (ascending) on chapter rows. -/
def chapterNumOrder (a b : Chapter) : Prop :=
  a.chapterNumber ≤ b.chapterNumber

instance : DecidableRel chapterNumOrder := fun a b =>
  inferInstanceAs (Decidable (_ ≤ _))

/-- `getStoryChapters(storyId)`: the story's chapters (no published filter),
ordered by chapter number ascending. -/
def getStoryChapters (db : DB) (storyId : Id) : List Chapter :=
  List.insertionSort chapterNumOrder
    (db.chapters.filter (fun c => c.storyId == storyId))

/-- Result row shape of `getPublishedStories`: the selected story columns
(note: `hasChapters` is not selected), the left-joined author (null when no
user row matches), and `count(likes.id)` as `likeCount`. -/
structure StoryRow where
  id : Id
  title : String
  content : String
  excerpt : Option String
  category : String
  coverImageUrl : Option String
  authorId : Id
  published : Bool
  publishedAt : Option Time
  wordCount : Nat
  createdAt : Time
  updatedAt : Time
  author : Option User
  likeCount : Nat
deriving Repr, DecidableEq

/-- One aggregated row of the `getPublishedStories` join, for a given story:
the author is left-joined by `authorId`, `likeCount` counts the like rows
grouped under the story's id (0 when none, since the join is outer). -/
def storyRowOf (db : DB) (s : Story) : StoryRow :=
  { id := s.id, title := s.title, content := s.content, excerpt := s.excerpt,
    category := s.category, coverImageUrl := s.coverImageUrl, authorId := s.authorId,
    published := s.published, publishedAt := s.publishedAt, wordCount := s.wordCount,
    createdAt := s.createdAt, updatedAt := s.updatedAt,
    author := (db.users.filter (fun u => u.id == s.authorId)).head?,
    likeCount := (db.likes.filter (fun l => l.storyId == s.id)).length }

/-- The WHERE condition the built query actually carries. The code first
sets `where published = true`, then — when `category` is truthy (a nonempty
string) and not "all" — calls `.where(category = c)` again; Drizzle's
`.where` assigns the builder's single condition, so the second call REPLACES
the published filter instead of conjoining with it. -/
def effectiveWhere (category : Option String) (s : Story) : Bool :=
  match category with
  | some c => if c != "" && c != "all" then s.category == c else s.published
  | none => s.published

/-- Sort relation of `ORDER BY publishedAt DESC` on aggregated rows. -/
def recentRowOrder (a b : StoryRow) : Prop :=
  timeDescLe a.publishedAt b.publishedAt = true

instance : DecidableRel recentRowOrder := fun a b =>
  inferInstanceAs (Decidable (_ = true))

/-- Sort relation of `ORDER BY count(likes.id) DESC, publishedAt DESC`:
like count descending, publish timestamp descending as tie-break. -/
def trendingRowOrder (a b : StoryRow) : Prop :=
  b.likeCount < a.likeCount ∨
    (a.likeCount = b.likeCount ∧ timeDescLe a.publishedAt b.publishedAt = true)

instance : DecidableRel trendingRowOrder := fun a b =>
  inferInstanceAs (Decidable (_ ∨ _))

/-- The `getPublishedStories` query before `limit(50)`: filter with the
query's (single) WHERE condition, aggregate each story with its author and
like count, and sort per `sortBy` — "recent" by publish time, "trending"
and every other value (the default included) by like count then publish
time. -/
def publishedStoriesSorted (db : DB) (category sortBy : Option String) : List StoryRow :=
  let rows := (db.stories.filter (effectiveWhere category)).map (storyRowOf db)
  if sortBy == some "recent" then
    List.insertionSort recentRowOrder rows
  else if sortBy == some "trending" then
    List.insertionSort trendingRowOrder rows
  else
    List.insertionSort trendingRowOrder rows

/-- `getPublishedStories(category?, sortBy?)`: the sorted aggregation capped
at 50 rows. -/
def getPublishedStories (db : DB) (category sortBy : Option String) : List StoryRow :=
  (publishedStoriesSorted db category sortBy).take 50

/-- `createBookmark(bookmark)`: look up an existing row by (userId, storyId)
with `limit(1)`; if found, set its `note` and refresh `createdAt` in place
and return the updated row; otherwise insert a new row. -/
def createBookmark (db : DB) (bm : InsertBookmark) : DB × Option Bookmark :=
  let existingBookmark :=
    (db.bookmarks.filter (fun b => b.userId == bm.userId && b.storyId == bm.storyId)).take 1
  match existingBookmark.head? with
  | some b0 =>
      let bookmarks := db.bookmarks.map (fun b =>
        if b.id == b0.id then { b with note := bm.note, createdAt := db.now } else b)
      ({ db with bookmarks := bookmarks },
        (bookmarks.filter (fun b => b.id == b0.id)).head?)
  | none =>
      let nb : Bookmark :=
        { id := db.nextId, userId := bm.userId, storyId := bm.storyId,
          chapterId := bm.chapterId, position := bm.position, note := bm.note,
          createdAt := db.now }
      ({ db with bookmarks := db.bookmarks ++ [nb], nextId := db.nextId + 1 }, some nb)

/-- The story-table invariant of the spec, per row: `publishedAt` is
non-null iff `published` is true, a publish timestamp is at or after the
row's creation time, and the row was created at or before the clock. -/
def storyInvB (now : Time) (s : Story) : Bool :=
  s.publishedAt.isSome == s.published &&
  (match s.publishedAt with | some t => s.createdAt ≤ t | none => true) &&
  s.createdAt ≤ now

/-- The invariant over the whole store. -/
def storiesInv (db : DB) : Prop :=
  ∀ s ∈ db.stories, storyInvB db.now s = true

instance (db : DB) : Decidable (storiesInv db) :=
  inferInstanceAs (Decidable (∀ s ∈ db.stories, _ = true))


lemma timeDescLe_total (a b : Option Time) : timeDescLe a b = true ∨ timeDescLe b a = true := by
  rcases a with _ | x <;> rcases b with _ | y <;> simp [timeDescLe]
  exact Nat.le_total y x

lemma timeDescLe_trans {a b c : Option Time} (h1 : timeDescLe a b = true)
    (h2 : timeDescLe b c = true) : timeDescLe a c = true := by
  rcases a with _ | x <;> rcases b with _ | y <;> rcases c with _ | z <;>
    simp_all [timeDescLe]
  exact le_trans h2 h1

instance : IsTotal Story storyRecentOrder :=
  ⟨fun a b => timeDescLe_total a.publishedAt b.publishedAt⟩

instance : IsTrans Story storyRecentOrder :=
  ⟨fun _ _ _ h1 h2 => timeDescLe_trans h1 h2⟩

instance : IsTotal Chapter chapterNumOrder :=
  ⟨fun a b => Nat.le_total a.chapterNumber b.chapterNumber⟩

instance : IsTrans Chapter chapterNumOrder :=
  ⟨fun _ _ _ h1 h2 => Nat.le_trans h1 h2⟩

instance : IsTotal StoryRow recentRowOrder :=
  ⟨fun a b => timeDescLe_total a.publishedAt b.publishedAt⟩

instance : IsTrans StoryRow recentRowOrder :=
  ⟨fun _ _ _ h1 h2 => timeDescLe_trans h1 h2⟩

instance : IsTotal StoryRow trendingRowOrder := by
  constructor
  intro a b
  rcases Nat.lt_trichotomy a.likeCount b.likeCount with h | h | h
  · exact Or.inr (Or.inl h)
  · rcases timeDescLe_total a.publishedAt b.publishedAt with ht | ht
    · exact Or.inl (Or.inr ⟨h, ht⟩)
    · exact Or.inr (Or.inr ⟨h.symm, ht⟩)
  · exact Or.inl (Or.inl h)

instance : IsTrans StoryRow trendingRowOrder := by
  constructor
  intro a b c h1 h2
  rcases h1 with h1 | ⟨e1, t1⟩ <;> rcases h2 with h2 | ⟨e2, t2⟩
  · exact Or.inl (Nat.lt_trans h2 h1)
  · exact Or.inl (e2 ▸ h1)
  · exact Or.inl (e1 ▸ h2)
  · exact Or.inr ⟨e1.trans e2, timeDescLe_trans t1 t2⟩


lemma publishedStoriesSorted_mem_iff (db : DB) (category sortBy : Option String) (r : StoryRow) :
    r ∈ publishedStoriesSorted db category sortBy ↔
      r ∈ (db.stories.filter (effectiveWhere category)).map (storyRowOf db) := by
  simp only [publishedStoriesSorted]
  split
  · exact (List.perm_insertionSort _ _).mem_iff
  · split
    · exact (List.perm_insertionSort _ _).mem_iff
    · exact (List.perm_insertionSort _ _).mem_iff

/-- C8: `getStoryChapters(storyId)` returns exactly the chapters belonging to
that story — published and unpublished alike, with no visibility filtering —
ordered ascending by chapter number, in every store state (hence regardless
of insertion order). -/
theorem getStoryChapters_spec (db : DB) (storyId : Id) :
    (∀ c, c ∈ getStoryChapters db storyId ↔ c ∈ db.chapters ∧ c.storyId = storyId) ∧
    List.Sorted chapterNumOrder (getStoryChapters db storyId) := by
  constructor
  · intro c
    unfold getStoryChapters
    rw [(List.perm_insertionSort _ _).mem_iff]
    simp [List.mem_filter]
  · exact List.sorted_insertionSort _ _

def dbW8 : DB :=
  { users := [], stories := [],
    chapters :=
      [{ id := 1, storyId := 5, title := "b", content := "x", chapterNumber := 2,
         published := false, publishedAt := none, wordCount := 0, createdAt := 0, updatedAt := 0 },
       { id := 2, storyId := 5, title := "a", content := "y", chapterNumber := 1,
         published := true, publishedAt := some 1, wordCount := 0, createdAt := 0, updatedAt := 0 }],
    likes := [], notifications := [], bookmarks := [], nextId := 10, now := 5 }

/-- Witness for C8: on a concrete store whose chapters were inserted in
descending number order, the result is sorted ascending. -/
theorem getStoryChapters_spec_witness :
    List.Sorted chapterNumOrder (getStoryChapters dbW8 5) ∧
    (getStoryChapters dbW8 5).map (fun c => c.chapterNumber) = [1, 2] :=
  ⟨(getStoryChapters_spec dbW8 5).2, by decide⟩

/-- C10: `getStoriesByAuthor(authorId)` returns exactly the author's
published stories — the author's unpublished stories are excluded — ordered
by publish timestamp descending. -/
theorem getStoriesByAuthor_spec (db : DB) (authorId : Id) :
    (∀ s, s ∈ getStoriesByAuthor db authorId ↔
        s ∈ db.stories ∧ s.authorId = authorId ∧ s.published = true) ∧
    List.Sorted storyRecentOrder (getStoriesByAuthor db authorId) := by
  constructor
  · intro s
    unfold getStoriesByAuthor
    rw [(List.perm_insertionSort _ _).mem_iff]
    simp [List.mem_filter, and_assoc]
  · exact List.sorted_insertionSort _ _

def dbW10 : DB :=
  { users := [], stories :=
      [{ id := 1, title := "u", content := "c", excerpt := none, category := "story",
         coverImageUrl := none, authorId := 3, published := false, publishedAt := none,
         wordCount := 0, hasChapters := false, createdAt := 0, updatedAt := 0 },
       { id := 2, title := "p", content := "c", excerpt := none, category := "story",
         coverImageUrl := none, authorId := 3, published := true, publishedAt := some 2,
         wordCount := 0, hasChapters := false, createdAt := 0, updatedAt := 0 }],
    chapters := [], likes := [], notifications := [], bookmarks := [], nextId := 10, now := 5 }

/-- Witness for C10: the author's unpublished story is excluded and the
published one is returned, sorted. -/
theorem getStoriesByAuthor_spec_witness :
    List.Sorted storyRecentOrder (getStoriesByAuthor dbW10 3) ∧
    (getStoriesByAuthor dbW10 3).map (fun s => s.id) = [2] :=
  ⟨(getStoriesByAuthor_spec dbW10 3).2, by decide⟩

/-- C4: `getPublishedStories` orders by publish timestamp descending when
`sortBy = "recent"`, and for every other `sortBy` value — "trending", any
unrecognized string, or an absent argument — orders by like count descending
with publish timestamp descending as tie-break: the default sort is the
trending order. -/
theorem getPublishedStories_sort_spec (db : DB) (category sortBy : Option String) :
    (sortBy = some "recent" →
      List.Sorted recentRowOrder (getPublishedStories db category sortBy)) ∧
    (sortBy ≠ some "recent" →
      List.Sorted trendingRowOrder (getPublishedStories db category sortBy)) := by
  constructor
  · intro h
    subst h
    simp only [getPublishedStories, publishedStoriesSorted, if_pos]
    exact List.Pairwise.sublist (List.take_sublist _ _) (List.sorted_insertionSort _ _)
  · intro h
    simp only [getPublishedStories, publishedStoriesSorted]
    rw [if_neg (by simpa using h)]
    split
    · exact List.Pairwise.sublist (List.take_sublist _ _) (List.sorted_insertionSort _ _)
    · exact List.Pairwise.sublist (List.take_sublist _ _) (List.sorted_insertionSort _ _)

def dbW4 : DB :=
  { users := [], stories :=
      [{ id := 1, title := "a", content := "c", excerpt := none, category := "story",
         coverImageUrl := none, authorId := 3, published := true, publishedAt := some 3,
         wordCount := 0, hasChapters := false, createdAt := 0, updatedAt := 0 },
       { id := 2, title := "b", content := "c", excerpt := none, category := "story",
         coverImageUrl := none, authorId := 3, published := true, publishedAt := some 1,
         wordCount := 0, hasChapters := false, createdAt := 0, updatedAt := 0 }],
    chapters := [], likes := [{ id := 7, userId := 4, storyId := 2, createdAt := 0 }],
    notifications := [], bookmarks := [], nextId := 10, now := 5 }

/-- Witness for C4: with one like on the older story, the default call sorts
it first (trending), while "recent" sorts by publish time. -/
theorem getPublishedStories_sort_spec_witness :
    List.Sorted recentRowOrder (getPublishedStories dbW4 none (some "recent")) ∧
    List.Sorted trendingRowOrder (getPublishedStories dbW4 none none) ∧
    (getPublishedStories dbW4 none (some "recent")).map (fun r => r.id) = [1, 2] ∧
    (getPublishedStories dbW4 none none).map (fun r => r.id) = [2, 1] :=
  ⟨(getPublishedStories_sort_spec dbW4 none (some "recent")).1 rfl,
   (getPublishedStories_sort_spec dbW4 none none).2 (by decide),
   by decide, by decide⟩


def dbC3 : DB :=
  { users := [],
    stories :=
      [{ id := 1, title := "t", content := "c", excerpt := none, category := "poem",
         coverImageUrl := none, authorId := 9, published := false, publishedAt := none,
         wordCount := 0, hasChapters := false, createdAt := 0, updatedAt := 0 }],
    chapters := [], likes := [], notifications := [], bookmarks := [], nextId := 10, now := 5 }

/-- C3 (code bug): the claim says every row returned by `getPublishedStories`
has `published = true` even when a category is given. In the code the
category branch issues a second `.where`, which in Drizzle replaces the
`published = true` condition instead of conjoining with it, so an
UNPUBLISHED poem is returned by `getPublishedStories("poem")` — while the
default call (whose single `.where` is the published filter) excludes it. -/
theorem getPublishedStories_category_drops_published_filter :
    dbC3.stories.all (fun s => !s.published) = true ∧
    (getPublishedStories dbC3 (some "poem") none).map (fun r => (r.id, r.published))
      = [(1, false)] ∧
    getPublishedStories dbC3 none none = [] := by decide

def bigStories : List Story :=
  (List.range 51).map (fun i =>
    { id := i, title := "t", content := "c", excerpt := none, category := "story",
      coverImageUrl := none, authorId := 99, published := true, publishedAt := some 0,
      wordCount := 0, hasChapters := false, createdAt := 0, updatedAt := 0 })

def dbC5 : DB :=
  { users := [], stories := bigStories, chapters := [], likes := [],
    notifications := [], bookmarks := [], nextId := 100, now := 5 }

/-- C5 counterexample: with 51 published zero-like stories, story 50 matches
the filter (published, zero likes) yet is absent from the result of
`getPublishedStories`, because the result is capped at 50 rows — so "every
published story matching the filter appears in the result" is false as
stated. -/
theorem getPublishedStories_cap_counterexample :
    dbC5.stories.any (fun s => s.id == 50 && s.published) = true ∧
    dbC5.likes.all (fun l => !(l.storyId == 50)) = true ∧
    (getPublishedStories dbC5 none none).all (fun r => !(r.id == 50)) = true ∧
    (getPublishedStories dbC5 none none).length = 50 := by decide

/-- C5 (amended): every story matching the query's WHERE condition appears
in the aggregated, sorted row list BEFORE the 50-row cap — with `likeCount`
equal to its number of like rows, 0 included, since the like join is outer —
and the returned result is that list capped at 50 rows. -/
theorem getPublishedStories_rows_spec (db : DB) (category sortBy : Option String) :
    (getPublishedStories db category sortBy).length ≤ 50 ∧
    getPublishedStories db category sortBy =
      (publishedStoriesSorted db category sortBy).take 50 ∧
    ∀ s ∈ db.stories, effectiveWhere category s = true →
      ∃ r ∈ publishedStoriesSorted db category sortBy,
        r.id = s.id ∧
        r.likeCount = (db.likes.filter (fun l => l.storyId == s.id)).length ∧
        r.published = s.published ∧ r.category = s.category := by
  refine ⟨List.length_take_le 50 _, rfl, ?_⟩
  intro s hs hw
  refine ⟨storyRowOf db s, ?_, rfl, rfl, rfl, rfl⟩
  rw [publishedStoriesSorted_mem_iff]
  exact List.mem_map_of_mem _ (List.mem_filter.2 ⟨hs, hw⟩)

def sW5 : Story :=
  { id := 1, title := "t", content := "c", excerpt := none, category := "story",
    coverImageUrl := none, authorId := 9, published := true, publishedAt := some 1,
    wordCount := 0, hasChapters := false, createdAt := 0, updatedAt := 0 }

def dbW5 : DB :=
  { users := [], stories := [sW5], chapters := [], likes := [],
    notifications := [], bookmarks := [], nextId := 10, now := 5 }

/-- Witness for C5: a published story with zero likes appears in the
aggregation with `likeCount = 0`. -/
theorem getPublishedStories_rows_spec_witness :
    (getPublishedStories dbW5 none none).length ≤ 50 ∧
    ∃ r ∈ publishedStoriesSorted dbW5 none none,
      r.id = 1 ∧ r.likeCount = 0 ∧ r.published = true ∧ r.category = "story" := by
  obtain ⟨h1, _, h3⟩ := getPublishedStories_rows_spec dbW5 none none
  refine ⟨h1, ?_⟩
  simpa using h3 sW5 (by decide) (by decide)

def dbC9 : DB :=
  { users := [],
    stories :=
      [{ id := 1, title := "t", content := "c", excerpt := none, category := "poem",
         coverImageUrl := none, authorId := 9, published := false, publishedAt := none,
         wordCount := 0, hasChapters := false, createdAt := 0, updatedAt := 0 }],
    chapters := [], likes := [], notifications := [], bookmarks := [], nextId := 10, now := 7 }

/-- C9 counterexample: `enableChaptersOnStory` also refreshes the story's
`updatedAt` to the current clock (`new Date()`), so "updatedAt unchanged" is
false: here it changes from 0 to 7. -/
theorem enableChapters_updatedAt_counterexample :
    dbC9.stories.map (fun s => s.updatedAt) = [0] ∧
    ((enableChaptersOnStory dbC9 1).1.stories.map (fun s => s.updatedAt)) = [7] := by decide

/-- C9 (amended): `enableChaptersOnStory(id)` sets the story's `hasChapters`
to true and refreshes its `updatedAt`; every other field of the story row is
unchanged, rows of other stories are unchanged, and every other table of the
store is unchanged. -/
theorem enableChaptersOnStory_frame (db : DB) (id : Id) :
    (enableChaptersOnStory db id).1.users = db.users ∧
    (enableChaptersOnStory db id).1.chapters = db.chapters ∧
    (enableChaptersOnStory db id).1.likes = db.likes ∧
    (enableChaptersOnStory db id).1.notifications = db.notifications ∧
    (enableChaptersOnStory db id).1.bookmarks = db.bookmarks ∧
    (enableChaptersOnStory db id).1.nextId = db.nextId ∧
    (enableChaptersOnStory db id).1.now = db.now ∧
    List.Forall₂ (fun s s' =>
      s'.id = s.id ∧ s'.title = s.title ∧ s'.content = s.content ∧
      s'.excerpt = s.excerpt ∧ s'.category = s.category ∧
      s'.coverImageUrl = s.coverImageUrl ∧ s'.authorId = s.authorId ∧
      s'.published = s.published ∧ s'.publishedAt = s.publishedAt ∧
      s'.wordCount = s.wordCount ∧ s'.createdAt = s.createdAt ∧
      (s.id = id → s'.hasChapters = true ∧ s'.updatedAt = db.now) ∧
      (s.id ≠ id → s' = s))
      db.stories (enableChaptersOnStory db id).1.stories := by
  refine ⟨rfl, rfl, rfl, rfl, rfl, rfl, rfl, ?_⟩
  rw [show (enableChaptersOnStory db id).1.stories =
      db.stories.map (fun s => if s.id == id then
        { s with hasChapters := true, updatedAt := db.now } else s) from rfl]
  rw [List.forall₂_map_right_iff]
  refine List.forall₂_same.2 ?_
  intro s _
  by_cases h : s.id = id
  · simp [h]
  · simp [h]

def dbW9 : DB := { dbC9 with now := 3 }

/-- Witness for C9: the frame theorem applied at a concrete store. -/
theorem enableChaptersOnStory_frame_witness :
    (enableChaptersOnStory dbW9 1).1.likes = dbW9.likes ∧
    List.Forall₂ (fun s s' =>
      s'.id = s.id ∧ s'.title = s.title ∧ s'.content = s.content ∧
      s'.excerpt = s.excerpt ∧ s'.category = s.category ∧
      s'.coverImageUrl = s.coverImageUrl ∧ s'.authorId = s.authorId ∧
      s'.published = s.published ∧ s'.publishedAt = s.publishedAt ∧
      s'.wordCount = s.wordCount ∧ s'.createdAt = s.createdAt ∧
      (s.id = 1 → s'.hasChapters = true ∧ s'.updatedAt = dbW9.now) ∧
      (s.id ≠ 1 → s' = s))
      dbW9.stories (enableChaptersOnStory dbW9 1).1.stories :=
  ⟨(enableChaptersOnStory_frame dbW9 1).2.2.1, (enableChaptersOnStory_frame dbW9 1).2.2.2.2.2.2.2⟩


def dbC7 : DB :=
  { users := [],
    stories :=
      [{ id := 1, title := "t", content := "c", excerpt := none, category := "story",
         coverImageUrl := none, authorId := 9, published := false, publishedAt := none,
         wordCount := 0, hasChapters := false, createdAt := 0, updatedAt := 0 }],
    chapters := [], likes := [], notifications := [], bookmarks := [], nextId := 10, now := 5 }

def publishedTruePatch : StoryPatch := { published := some true }

/-- C7 counterexample: from a state satisfying the publish invariant,
`updateStory` with a patch that sets `published` to true yields a story with
`published = true` but `publishedAt` still null (`publishedAt` is not an
updatable field), so the operation does not preserve the invariant. -/
theorem updateStory_breaks_publish_invariant :
    storiesInv dbC7 ∧ ¬ storiesInv (updateStory dbC7 1 publishedTruePatch).1 := by decide

/-- C7 (amended): from any state satisfying the invariant — `publishedAt`
non-null iff `published`, publish timestamps at or after row creation, rows
created at or before the clock — `publishStory` and `enableChaptersOnStory`
preserve it for every id; `createStory` preserves it provided the insert
data does not set `published` to true; and `updateStory` preserves it
provided the patch leaves the `published` flag absent. (A patch touching
`published` can break it, as `publishedAt` is never updatable.) -/
theorem publish_invariant_preservation (db : DB) (hinv : storiesInv db) :
    (∀ id, storiesInv (publishStory db id).1) ∧
    (∀ id, storiesInv (enableChaptersOnStory db id).1) ∧
    (∀ d : InsertStory, d.published ≠ some true → storiesInv (createStory db d).1) ∧
    (∀ id p, p.published = none → storiesInv (updateStory db id p).1) := by
  refine ⟨?_, ?_, ?_, ?_⟩
  · intro id s hs
    simp only [publishStory, List.mem_map] at hs
    obtain ⟨t, ht, rfl⟩ := hs
    have h := hinv t ht
    by_cases hid : t.id == id <;>
      simp_all [publishStory, storyInvB, Bool.and_eq_true, decide_eq_true_eq]
  · intro id s hs
    simp only [enableChaptersOnStory, List.mem_map] at hs
    obtain ⟨t, ht, rfl⟩ := hs
    have h := hinv t ht
    by_cases hid : t.id == id <;>
      simp_all [enableChaptersOnStory, storyInvB, Bool.and_eq_true, decide_eq_true_eq]
  · intro d hd s hs
    simp only [createStory, List.mem_append, List.mem_singleton] at hs
    rcases hs with hs | rfl
    · simpa [createStory, storyInvB] using hinv s hs
    · rcases hb : d.published with _ | b
      · simp [createStory, storyInvB, hb]
      · cases b
        · simp [createStory, storyInvB, hb]
        · exact absurd hb hd
  · intro id p hp s hs
    simp only [updateStory, List.mem_map] at hs
    obtain ⟨t, ht, rfl⟩ := hs
    have h := hinv t ht
    by_cases hid : t.id == id <;>
      simp_all [updateStory, storyInvB, applyStoryPatch, hp, Bool.and_eq_true, decide_eq_true_eq]

def titlePatch : StoryPatch := { title := some "x" }

/-- Witness for C7: the preserved operations applied at a concrete
invariant-satisfying store. -/
theorem publish_invariant_preservation_witness :
    storiesInv (publishStory dbC7 1).1 ∧
    storiesInv (updateStory dbC7 1 titlePatch).1 ∧
    storiesInv (enableChaptersOnStory dbC7 1).1 :=
  ⟨(publish_invariant_preservation dbC7 (by decide)).1 1,
   (publish_invariant_preservation dbC7 (by decide)).2.2.2 1 titlePatch rfl,
   (publish_invariant_preservation dbC7 (by decide)).2.1 1⟩


lemma exists_pair_iff (db : DB) (u s : Id) :
    0 < ((likesForPair db u s).take 1).length ↔
      ∃ l ∈ db.likes, l.userId = u ∧ l.storyId = s := by
  simp [likesForPair, List.length_take, Nat.lt_min, List.length_pos,
    List.filter_eq_nil_iff, Bool.and_eq_true]

lemma toggleLike_delete (db : DB) (u s : Id)
    (h : ∃ l ∈ db.likes, l.userId = u ∧ l.storyId = s) :
    toggleLike db u s =
      ({ db with likes := db.likes.filter (fun l => !(l.userId == u && l.storyId == s)) },
       { liked := false,
         count := getLikeCount
           { db with likes := db.likes.filter (fun l => !(l.userId == u && l.storyId == s)) } s }) := by
  simp only [toggleLike]
  rw [if_pos ((exists_pair_iff db u s).2 h)]

lemma toggleLike_insert_shape (db : DB) (u s : Id)
    (h : ¬ ∃ l ∈ db.likes, l.userId = u ∧ l.storyId = s) :
    (toggleLike db u s).1.likes =
      db.likes ++ [{ id := db.nextId, userId := u, storyId := s, createdAt := db.now }] ∧
    (toggleLike db u s).1.stories = db.stories ∧
    (toggleLike db u s).1.now = db.now ∧
    (toggleLike db u s).2.liked = true ∧
    (toggleLike db u s).2.count = getLikeCount (toggleLike db u s).1 s := by
  have hc : ¬ 0 < ((likesForPair db u s).take 1).length := by
    rw [exists_pair_iff]; exact h
  simp only [toggleLike]
  rw [if_neg hc]
  refine ⟨?_, ?_, ?_, ?_, ?_⟩ <;>
    · split <;> (try split) <;> simp [createNotification, getLikeCount]

/-- C1 (amended): if a like row for (u, s) exists, `toggleLike` deletes it
and returns liked=false with the count taken after the deletion; if none
exists, it inserts one and returns liked=true with the count taken after
the insertion, which exceeds the prior count by exactly 1. Hence, from any
state with NO existing like for the pair, calling `toggleLike` twice in
succession returns liked=false on the second call and restores the story's
like count to its pre-toggle value. (From a state where a like already
exists the second call returns liked=true, so the claim's "from any state"
does not hold — see the counterexample.) -/
theorem toggleLike_spec (db : DB) (u s : Id) :
    ((∃ l ∈ db.likes, l.userId = u ∧ l.storyId = s) →
      (toggleLike db u s).2.liked = false ∧
      (toggleLike db u s).1.likes =
        db.likes.filter (fun l => !(l.userId == u && l.storyId == s)) ∧
      (toggleLike db u s).2.count = getLikeCount (toggleLike db u s).1 s) ∧
    ((¬ ∃ l ∈ db.likes, l.userId = u ∧ l.storyId = s) →
      (toggleLike db u s).2.liked = true ∧
      (toggleLike db u s).1.likes =
        db.likes ++ [{ id := db.nextId, userId := u, storyId := s, createdAt := db.now }] ∧
      (toggleLike db u s).2.count = getLikeCount (toggleLike db u s).1 s ∧
      (toggleLike db u s).2.count = getLikeCount db s + 1 ∧
      (toggleLike (toggleLike db u s).1 u s).2.liked = false ∧
      (toggleLike (toggleLike db u s).1 u s).2.count = getLikeCount db s) := by
  constructor
  · intro h
    rw [toggleLike_delete db u s h]
    exact ⟨rfl, rfl, rfl⟩
  · intro h
    obtain ⟨h1, _, _, h4, h5⟩ := toggleLike_insert_shape db u s h
    have hnotin : ∀ l ∈ db.likes, ¬(l.userId = u ∧ l.storyId = s) :=
      fun l hl hpair => h ⟨l, hl, hpair⟩
    have hcount1 : getLikeCount (toggleLike db u s).1 s = getLikeCount db s + 1 := by
      simp only [getLikeCount, h1]
      simp [List.filter_append]
    have hex2 : ∃ l ∈ (toggleLike db u s).1.likes, l.userId = u ∧ l.storyId = s := by
      refine ⟨{ id := db.nextId, userId := u, storyId := s, createdAt := db.now }, ?_, rfl, rfl⟩
      rw [h1]
      exact List.mem_append_right _ (List.mem_singleton_self _)
    have hfilterdel :
        (toggleLike db u s).1.likes.filter (fun l => !(l.userId == u && l.storyId == s))
          = db.likes := by
      rw [h1, List.filter_append]
      have e1 : db.likes.filter (fun l => !(l.userId == u && l.storyId == s)) = db.likes := by
        refine List.filter_eq_self.2 ?_
        intro a ha
        have hh := hnotin a ha
        simp at hh ⊢
        tauto
      rw [e1]
      simp
    have hdel := toggleLike_delete (toggleLike db u s).1 u s hex2
    refine ⟨h4, h1, h5, h5.trans hcount1, ?_, ?_⟩
    · rw [hdel]
    · rw [hdel]
      simp only [getLikeCount]
      simp only [hfilterdel]

def sW1 : Story :=
  { id := 1, title := "t", content := "c", excerpt := none, category := "story",
    coverImageUrl := none, authorId := 9, published := true, publishedAt := some 1,
    wordCount := 0, hasChapters := false, createdAt := 0, updatedAt := 0 }

def dbW1 : DB :=
  { users := [], stories := [sW1], chapters := [], likes := [],
    notifications := [], bookmarks := [], nextId := 10, now := 5 }

/-- Witness for C1: a like/unlike round trip from a no-like state. -/
theorem toggleLike_spec_witness :
    (toggleLike dbW1 3 1).2.liked = true ∧
    (toggleLike dbW1 3 1).2.count = getLikeCount dbW1 1 + 1 ∧
    (toggleLike (toggleLike dbW1 3 1).1 3 1).2.liked = false ∧
    (toggleLike (toggleLike dbW1 3 1).1 3 1).2.count = getLikeCount dbW1 1 :=
  let h := (toggleLike_spec dbW1 3 1).2 (by decide)
  ⟨h.1, h.2.2.2.1, h.2.2.2.2.1, h.2.2.2.2.2⟩

def dbC1 : DB :=
  { users := [], stories := [], chapters := [],
    likes := [{ id := 1, userId := 1, storyId := 2, createdAt := 0 }],
    notifications := [], bookmarks := [], nextId := 10, now := 5 }

/-- C1 counterexample: from a state where a like for the pair already
exists, the first call deletes it and the second call re-inserts it,
returning liked = TRUE — refuting "calling toggleLike twice in succession
from any state returns liked=false on the second call". -/
theorem toggleLike_twice_counterexample :
    dbC1.likes.any (fun l => l.userId == 1 && l.storyId == 2) = true ∧
    ((toggleLike (toggleLike dbC1 1 2).1 1 2).2).liked = true := by decide

lemma getStory_update_likes (db : DB) (L : List Like) (n : Id) (s : Id) :
    getStory { db with likes := L, nextId := n } s = getStory db s := rfl

/-- C2: when `toggleLike` inserts a like on an existing story whose author
is the liking user, no notification is created; when the author differs,
exactly one notification of type "like", addressed to the author and
referencing the story, is appended; the delete (unlike) branch never
creates a notification. -/
theorem toggleLike_notification_spec (db : DB) (u s : Id) (story : Story)
    (hst : getStory db s = some story) :
    ((∃ l ∈ db.likes, l.userId = u ∧ l.storyId = s) →
      (toggleLike db u s).1.notifications = db.notifications) ∧
    ((¬ ∃ l ∈ db.likes, l.userId = u ∧ l.storyId = s) →
      (story.authorId = u → (toggleLike db u s).1.notifications = db.notifications) ∧
      (story.authorId ≠ u →
        (toggleLike db u s).1.notifications = db.notifications ++
          [{ id := db.nextId + 1, userId := story.authorId, «type» := "like",
             storyId := some s, read := false, createdAt := db.now }])) := by
  constructor
  · intro h
    rw [toggleLike_delete db u s h]
  · intro h
    have hc : ¬ 0 < ((likesForPair db u s).take 1).length := by
      rw [exists_pair_iff]; exact h
    simp only [toggleLike]
    rw [if_neg hc]
    constructor
    · intro he
      simp [getStory_update_likes, hst, he]
    · intro hne
      simp [getStory_update_likes, hst, bne_iff_ne, hne, createNotification]

def sW2 : Story :=
  { id := 1, title := "t", content := "c", excerpt := none, category := "story",
    coverImageUrl := none, authorId := 9, published := true, publishedAt := some 1,
    wordCount := 0, hasChapters := false, createdAt := 0, updatedAt := 0 }

def dbW2 : DB :=
  { users := [], stories := [sW2], chapters := [], likes := [],
    notifications := [], bookmarks := [], nextId := 10, now := 5 }

/-- Witness for C2: liking another author's story appends one "like"
notification to them; self-liking appends none. -/
theorem toggleLike_notification_spec_witness :
    (toggleLike dbW2 3 1).1.notifications = dbW2.notifications ++
      [{ id := dbW2.nextId + 1, userId := sW2.authorId, «type» := "like",
         storyId := some 1, read := false, createdAt := dbW2.now }] ∧
    (toggleLike dbW2 9 1).1.notifications = dbW2.notifications :=
  ⟨((toggleLike_notification_spec dbW2 3 1 sW2 (by decide)).2 (by decide)).2 (by decide),
   ((toggleLike_notification_spec dbW2 9 1 sW2 (by decide)).2 (by decide)).1 (by decide)⟩


lemma createBookmark_insert_eq (db : DB) (bm : InsertBookmark)
    (hfl : db.bookmarks.filter (fun b => b.userId == bm.userId && b.storyId == bm.storyId) = []) :
    createBookmark db bm =
      ({ db with bookmarks := db.bookmarks ++
          [{ id := db.nextId, userId := bm.userId, storyId := bm.storyId,
             chapterId := bm.chapterId, position := bm.position, note := bm.note,
             createdAt := db.now }], nextId := db.nextId + 1 },
       some { id := db.nextId, userId := bm.userId, storyId := bm.storyId,
              chapterId := bm.chapterId, position := bm.position, note := bm.note,
              createdAt := db.now }) := by
  simp only [createBookmark, hfl, List.take_nil, List.head?_nil]

lemma createBookmark_update_eq (db : DB) (bm : InsertBookmark) (b0 : Bookmark)
    (rest : List Bookmark)
    (hfl : db.bookmarks.filter (fun b => b.userId == bm.userId && b.storyId == bm.storyId)
      = b0 :: rest) :
    createBookmark db bm =
      ({ db with bookmarks := db.bookmarks.map (fun b =>
            if b.id == b0.id then { b with note := bm.note, createdAt := db.now } else b) },
       ((db.bookmarks.map (fun b =>
            if b.id == b0.id then { b with note := bm.note, createdAt := db.now } else b)).filter
          (fun b => b.id == b0.id)).head?) := by
  simp only [createBookmark, hfl, List.take_succ_cons, List.take_zero, List.head?_cons]

lemma bookmark_pair_preserved (bm : InsertBookmark) (b0 : Bookmark) (now : Time)
    (b : Bookmark) :
    (((if b.id == b0.id then { b with note := bm.note, createdAt := now } else b).userId
        == bm.userId) &&
     ((if b.id == b0.id then { b with note := bm.note, createdAt := now } else b).storyId
        == bm.storyId))
      = (b.userId == bm.userId && b.storyId == bm.storyId) := by
  by_cases h : b.id == b0.id <;> simp [h]

lemma createBookmark_update_pairRows (db : DB) (bm : InsertBookmark) (b0 : Bookmark)
    (hfl : db.bookmarks.filter (fun b => b.userId == bm.userId && b.storyId == bm.storyId)
      = [b0]) :
    (createBookmark db bm).1.bookmarks.filter
        (fun b => b.userId == bm.userId && b.storyId == bm.storyId)
      = [{ b0 with note := bm.note, createdAt := db.now }] := by
  rw [createBookmark_update_eq db bm b0 [] hfl]
  show ((db.bookmarks.map (fun b =>
      if b.id == b0.id then { b with note := bm.note, createdAt := db.now } else b)).filter
    (fun b => b.userId == bm.userId && b.storyId == bm.storyId)) = _
  rw [List.filter_map]
  rw [List.filter_congr (fun b _ => by
    simpa using bookmark_pair_preserved bm b0 db.now b)]
  rw [hfl]
  simp

lemma createBookmark_pair_singleton (db : DB) (bm : InsertBookmark)
    (hinv : (db.bookmarks.filter
        (fun b => b.userId == bm.userId && b.storyId == bm.storyId)).length ≤ 1) :
    ∃ b : Bookmark,
      (createBookmark db bm).1.bookmarks.filter
          (fun x => x.userId == bm.userId && x.storyId == bm.storyId) = [b] ∧
      b.note = bm.note ∧ b.createdAt = db.now ∧
      (createBookmark db bm).1.now = db.now ∧
      ((createBookmark db bm).1.bookmarks.filter
          (fun x => x.userId == bm.userId && x.storyId == bm.storyId)).length ≤ 1 := by
  cases hfl : db.bookmarks.filter (fun b => b.userId == bm.userId && b.storyId == bm.storyId) with
  | nil =>
      refine ⟨{ id := db.nextId, userId := bm.userId, storyId := bm.storyId,
                chapterId := bm.chapterId, position := bm.position, note := bm.note,
                createdAt := db.now }, ?_, rfl, rfl, ?_, ?_⟩
      · rw [createBookmark_insert_eq db bm hfl]
        show (db.bookmarks ++ [_]).filter _ = _
        rw [List.filter_append, hfl]
        simp
      · rw [createBookmark_insert_eq db bm hfl]
      · rw [createBookmark_insert_eq db bm hfl]
        show ((db.bookmarks ++ [_]).filter _).length ≤ 1
        rw [List.filter_append, hfl]
        simp
  | cons b0 rest =>
      have hrest : rest = [] := by
        have := hfl ▸ hinv
        simp at this
        exact this
      subst hrest
      refine ⟨{ b0 with note := bm.note, createdAt := db.now }, ?_, rfl, rfl, ?_, ?_⟩
      · exact createBookmark_update_pairRows db bm b0 hfl
      · rw [createBookmark_update_eq db bm b0 [] hfl]
      · rw [createBookmark_update_pairRows db bm b0 hfl]
        simp

/-- C6: with at most one bookmark for the (user, story) pair in the store,
`createBookmark` updates the existing row's note and creation timestamp in
place and returns a row with the existing row's id when one exists, inserts
a new row when none exists, and calling it twice for the same pair leaves
exactly one bookmark row for that pair, bearing the second call's note. -/
theorem createBookmark_spec (db : DB) (bm bm2 : InsertBookmark)
    (hinv : (db.bookmarks.filter
        (fun b => b.userId == bm.userId && b.storyId == bm.storyId)).length ≤ 1)
    (hu : bm2.userId = bm.userId) (hs : bm2.storyId = bm.storyId) :
    (∀ b0 ∈ (db.bookmarks.filter
        (fun b => b.userId == bm.userId && b.storyId == bm.storyId)).head?,
      (∃ r, (createBookmark db bm).2 = some r ∧ r.id = b0.id) ∧
      (createBookmark db bm).1.bookmarks.length = db.bookmarks.length ∧
      (createBookmark db bm).1.bookmarks.filter
          (fun b => b.userId == bm.userId && b.storyId == bm.storyId)
        = [{ b0 with note := bm.note, createdAt := db.now }]) ∧
    (db.bookmarks.filter (fun b => b.userId == bm.userId && b.storyId == bm.storyId) = [] →
      (createBookmark db bm).1.bookmarks = db.bookmarks ++
        [{ id := db.nextId, userId := bm.userId, storyId := bm.storyId,
           chapterId := bm.chapterId, position := bm.position, note := bm.note,
           createdAt := db.now }]) ∧
    (((createBookmark (createBookmark db bm).1 bm2).1.bookmarks.filter
        (fun b => b.userId == bm.userId && b.storyId == bm.storyId)).length = 1 ∧
      ∀ b ∈ (createBookmark (createBookmark db bm).1 bm2).1.bookmarks.filter
          (fun b => b.userId == bm.userId && b.storyId == bm.storyId),
        b.note = bm2.note ∧ b.createdAt = db.now) := by
  have hcongr : ∀ l : List Bookmark,
      l.filter (fun b => b.userId == bm2.userId && b.storyId == bm2.storyId)
        = l.filter (fun b => b.userId == bm.userId && b.storyId == bm.storyId) := by
    intro l
    exact List.filter_congr (fun b _ => by rw [hu, hs])
  obtain ⟨b1, hb1rows, hb1note, hb1cre, hb1now, hb1len⟩ :=
    createBookmark_pair_singleton db bm hinv
  have hinv2 : ((createBookmark db bm).1.bookmarks.filter
      (fun b => b.userId == bm2.userId && b.storyId == bm2.storyId)).length ≤ 1 := by
    rw [hcongr]
    exact hb1len
  obtain ⟨b2, hb2rows, hb2note, hb2cre, hb2now, _⟩ :=
    createBookmark_pair_singleton (createBookmark db bm).1 bm2 hinv2
  refine ⟨?_, ?_, ?_, ?_⟩
  · intro b0 hb0
    cases hfl : db.bookmarks.filter
        (fun b => b.userId == bm.userId && b.storyId == bm.storyId) with
    | nil => rw [hfl] at hb0; simp at hb0
    | cons c t =>
        rw [hfl] at hb0
        simp at hb0
        rw [hb0] at hfl
        have ht : t = [] := by
          have := hfl ▸ hinv
          simp at this
          exact this
        subst ht
        have hb0mem : b0 ∈ db.bookmarks := by
          have : b0 ∈ db.bookmarks.filter
              (fun b => b.userId == bm.userId && b.storyId == bm.storyId) := by
            rw [hfl]; exact List.mem_singleton_self _
          exact (List.mem_filter.1 this).1
        refine ⟨?_, ?_, ?_⟩
        · rw [createBookmark_update_eq db bm b0 [] hfl]
          cases hL : (db.bookmarks.map (fun b =>
              if b.id == b0.id then { b with note := bm.note, createdAt := db.now } else b)).filter
                (fun b => b.id == b0.id) with
          | nil =>
              exfalso
              have hmem : (if b0.id == b0.id then
                  { b0 with note := bm.note, createdAt := db.now } else b0) ∈
                    (db.bookmarks.map (fun b =>
                      if b.id == b0.id then { b with note := bm.note, createdAt := db.now }
                      else b)).filter (fun b => b.id == b0.id) := by
                refine List.mem_filter.2 ⟨List.mem_map_of_mem _ hb0mem, ?_⟩
                simp
              rw [hL] at hmem
              exact absurd hmem (List.not_mem_nil _)
          | cons r t2 =>
              refine ⟨r, rfl, ?_⟩
              have hrmem : r ∈ (db.bookmarks.map (fun b =>
                  if b.id == b0.id then { b with note := bm.note, createdAt := db.now }
                  else b)).filter (fun b => b.id == b0.id) := by
                rw [hL]; exact List.mem_cons_self _ _
              have := (List.mem_filter.1 hrmem).2
              simpa using this
        · rw [createBookmark_update_eq db bm b0 [] hfl]
          show (db.bookmarks.map _).length = _
          rw [List.length_map]
        · exact createBookmark_update_pairRows db bm b0 hfl
  · intro hfl
    rw [createBookmark_insert_eq db bm hfl]
  · rw [← hcongr, hb2rows]
    rfl
  · intro b hb
    rw [← hcongr, hb2rows] at hb
    simp at hb
    subst hb
    exact ⟨hb2note, by rw [hb2cre, hb1now]⟩

def dbW6 : DB :=
  { users := [], stories := [], chapters := [], likes := [], notifications := [],
    bookmarks := [], nextId := 20, now := 9 }

def bmW : InsertBookmark := { userId := 1, storyId := 2, position := 3, note := some "first" }

def bmW2 : InsertBookmark := { userId := 1, storyId := 2, position := 7, note := some "second" }

/-- Witness for C6: two calls for the same pair with different notes leave
exactly one bookmark row, carrying the second note. -/
theorem createBookmark_spec_witness :
    (((createBookmark (createBookmark dbW6 bmW).1 bmW2).1.bookmarks.filter
        (fun b => b.userId == bmW.userId && b.storyId == bmW.storyId)).length = 1 ∧
      ∀ b ∈ (createBookmark (createBookmark dbW6 bmW).1 bmW2).1.bookmarks.filter
          (fun b => b.userId == bmW.userId && b.storyId == bmW.storyId),
        b.note = bmW2.note ∧ b.createdAt = dbW6.now) ∧
    (createBookmark dbW6 bmW).1.bookmarks = dbW6.bookmarks ++
      [{ id := dbW6.nextId, userId := bmW.userId, storyId := bmW.storyId,
         chapterId := bmW.chapterId, position := bmW.position, note := bmW.note,
         createdAt := dbW6.now }] :=
  ⟨(createBookmark_spec dbW6 bmW bmW2 (by decide) rfl rfl).2.2,
   (createBookmark_spec dbW6 bmW bmW2 (by decide) rfl rfl).2.1 (by decide)⟩

end Inkwell
